import Mathlib

/-
  Verification of the batching/retrying producer core of kafka-python
  (kafka/producer/base.py): the `_send_upstream` background worker loop
  and the `Producer` facade (construction, sync/async send, stop,
  teardown cleanup).

  Shallow embedding conventions:
  * Byte strings are `List Nat`.
  * The Python `Queue` is a `List QueueItem`; `put_nowait` fails when a
    positive maxsize is reached; the timed `get` of the worker is modelled
    by a per-cycle dequeue budget `avail` (the number of `get` calls that
    return an item before the cycle deadline expires; after that, `Empty`).
  * The external cluster client is an oracle: each cycle's
    `send_produce_request` outcome is an input (`SendResult`), and the
    network calls the worker performs are recorded as a `List NetCall`
    in program order (all calls of a cycle happen in the dispatch phase,
    after the collection phase in which the STOP sentinel is observed).
  * Exceptions are explicit constructors; a Python exception escaping
    `_send_upstream` (killing the worker thread) is `CycleResult.crashed`.
-/

namespace Kafka

abbrev Bytes := List Nat

structure TopicAndPartition where
  topic : Bytes
  partition : Int
deriving DecidableEq

/-- Modelled from the spec: the codec boundary's message-set blob
("encodeMessageSet(pairs: ordered list<(payload, key)>, codec) -> message-set
blob"); `kafka.protocol` is not under src/, so the blob is kept abstract as
the ordered pair list plus the codec tag. -/
structure MessageSet where
  pairs : List (Bytes × Option Bytes)
  codec : Nat
deriving DecidableEq

/-- Modelled from the spec: `RequestAttempt` = {destination, message-set,
retryCount}; `kafka.common.ProduceRequest` is not under src/. `retries`
defaults to 0 at creation ("one RequestAttempt per destination with
retryCount = 0"). -/
structure ProduceRequest where
  topic : Bytes
  partition : Int
  messages : MessageSet
  retries : Int
deriving DecidableEq

def CODEC_NONE : Nat := 0
def CODEC_GZIP : Nat := 1
def CODEC_SNAPPY : Nat := 2

/-- Modelled from the spec: the supported codec set of the codec boundary
("raises if codec is not in the supported set"); `kafka.protocol.ALL_CODECS`
is not under src/. -/
def ALL_CODECS : List Nat := [CODEC_NONE, CODEC_GZIP, CODEC_SNAPPY]

/-- Modelled from the spec: `create_message_set` encodes an ordered list of
(payload, key) pairs with a codec and raises (here: `Except.error`) exactly
when the codec is not in the supported set; `kafka.protocol` is not under
src/. -/
def create_message_set (pairs : List (Bytes × Option Bytes)) (codec : Nat) :
    Except Unit MessageSet :=
  if codec ∈ ALL_CODECS then Except.ok ⟨pairs, codec⟩ else Except.error ()

/-- `kafka.common.RetryOptions` (namedtuple): modelled from the spec's
`RetryPolicy` {limit: integer|unbounded, backoffMs, retryOnTimeout}. A
Python `limit=None` is `none`. -/
structure RetryOptions where
  limit : Option Int
  backoff_ms : Int
  retry_on_timeouts : Bool
deriving DecidableEq

/-- `BATCH_RETRY_OPTIONS = RetryOptions(limit=0, backoff_ms=300,
retry_on_timeouts=False)` (base.py line 32). -/
def BATCH_RETRY_OPTIONS : RetryOptions :=
  { limit := some 0, backoff_ms := 300, retry_on_timeouts := false }

/-- Modelled from the spec: the classified error raised by the cluster
client ("a closed set {Success, PartialFailure(failedIndices), Timeout,
Retryable, Fatal}"); the concrete exception classes live in `kafka.common`,
not under src/. The kind mirrors the `type(ex) == ...` tests of
`_send_upstream`. -/
inductive ErrKind
  | failedPayloads (failed : List ProduceRequest)
  | requestTimedOut
  | otherRetryable
deriving DecidableEq

/-- An exception caught by `except tuple(RETRY_ERROR_TYPES)`: its kind plus
its membership in `RETRY_BACKOFF_ERROR_TYPES` / `RETRY_REFRESH_ERROR_TYPES`
(fixed type sets of `kafka.common`, not under src/, kept abstract as two
booleans). -/
structure ClusterError where
  kind : ErrKind
  inBackoffTypes : Bool
  inRefreshTypes : Bool
deriving DecidableEq

/-- Outcome of one `client.send_produce_request` call: success, an error in
`RETRY_ERROR_TYPES` (first handler, base.py line 94), or any other
exception (second handler, base.py line 122). -/
inductive SendResult
  | success
  | clusterError (ex : ClusterError)
  | otherExn
deriving DecidableEq

/-- `req._replace(retries=req.retries+1)` (base.py line 108). -/
def incReq (r : ProduceRequest) : ProduceRequest :=
  { r with retries := r.retries + 1 }

/-- Lines 96-104 of base.py: `reqs_to_retry = reqs`; if the exception is a
`FailedPayloadsError` take `ex.failed_payloads`; elif it is a
`RequestTimedOutError` and timeouts are not retried take `[]`. -/
def classifyRetries (o : RetryOptions) (reqs : List ProduceRequest)
    (ex : ClusterError) : List ProduceRequest :=
  match ex.kind with
  | ErrKind.failedPayloads failed => failed
  | ErrKind.requestTimedOut => if !o.retry_on_timeouts then [] else reqs
  | ErrKind.otherRetryable => reqs

/-- Lines 106-110 of base.py: `if retry_options.limit and
retry_options.limit > 0:` keep only requests with `retries < limit`,
incrementing `retries` on each survivor (a `None` or non-positive limit
leaves the list untouched). -/
def limitFilter (o : RetryOptions) (base : List ProduceRequest) :
    List ProduceRequest :=
  match o.limit with
  | none => base
  | some l =>
      if 0 < l then
        (base.filter fun r => decide (r.retries < l)).map incReq
      else base

/-- Lines 96-110 of base.py: classification followed by the retry-limit
filter. -/
def computeRetries (o : RetryOptions) (reqs : List ProduceRequest)
    (ex : ClusterError) : List ProduceRequest :=
  limitFilter o (classifyRetries o reqs ex)

/-- The carry-over (`reqs_to_retry`) produced by the whole
`try/except/finally` dispatch of one cycle (base.py lines 88-129): empty on
success, `computeRetries` for an error of `RETRY_ERROR_TYPES`, and empty
(log and drop) for any other exception. -/
def dispatchRetries (o : RetryOptions) (reqs : List ProduceRequest) :
    SendResult → List ProduceRequest
  | SendResult.success => []
  | SendResult.clusterError ex => computeRetries o reqs ex
  | SendResult.otherExn => []

/-- Network calls made by the worker, in program order. -/
inductive NetCall
  | reinit
  | send (reqs : List ProduceRequest)
  | loadMetadata
deriving DecidableEq

/-- The network calls of one dispatch (base.py lines 90, 119-120): the
`send_produce_request` itself, then `load_metadata_for_topics` when the
carry-over is non-empty and the error type is in
`RETRY_REFRESH_ERROR_TYPES`. (The backoff `time.sleep` is not a network
call and is not recorded.) -/
def dispatchCalls (o : RetryOptions) (reqs : List ProduceRequest)
    (res : SendResult) : List NetCall :=
  NetCall.send reqs ::
    (match res with
     | SendResult.clusterError ex =>
         if computeRetries o reqs ex ≠ [] ∧ ex.inRefreshTypes then
           [NetCall.loadMetadata]
         else []
     | _ => [])

/-- An item of the shared work queue: either the
`(STOP_ASYNC_PRODUCER, None, None)` sentinel or an envelope
`(TopicAndPartition(topic, partition), msg, key)`. -/
inductive QueueItem
  | stopSentinel
  | env (tp : TopicAndPartition) (msg : Bytes) (key : Option Bytes)
deriving DecidableEq

/-- Worker-visible state between cycles of `_send_upstream`: the remaining
queue contents, the carried-over `reqs`, and the `stop_event` flag. -/
structure WorkerState where
  queue : List QueueItem
  reqs : List ProduceRequest
  stop_set : Bool
deriving DecidableEq

/-- The arguments of `_send_upstream` that the embedded cycles read. -/
structure WorkerConfig where
  codec : Nat
  batch_size : Nat
  retry_options : RetryOptions
deriving DecidableEq

/-- Oracle inputs of one cycle: how many `queue.get` calls return an item
before the cycle deadline (`avail`), and the outcome of the
`send_produce_request` call if one is made. -/
structure CycleInput where
  avail : Nat
  sendResult : SendResult
deriving DecidableEq

/-- The collection loop of one cycle (base.py lines 61-75): dequeue while
`count > 0` and time remains; `Empty` (empty queue or exhausted budget)
breaks; the STOP sentinel sets the stop event and breaks. Returns the
collected envelopes in dequeue order, the remaining queue, and whether
STOP was observed. -/
def collectLoop : Nat → Nat → List QueueItem →
    List (TopicAndPartition × Bytes × Option Bytes) →
    List (TopicAndPartition × Bytes × Option Bytes) × List QueueItem × Bool
  | 0, _, q, acc => (acc, q, false)
  | _ + 1, 0, q, acc => (acc, q, false)
  | count + 1, avail + 1, q, acc =>
    match q with
    | [] => (acc, q, false)
    | QueueItem.stopSentinel :: rest => (acc, rest, true)
    | QueueItem.env tp m k :: rest =>
        collectLoop count avail rest (acc ++ [(tp, m, k)])

/-- Append one (payload, key) pair to its destination's group, creating the
group at the end on first occurrence (the `defaultdict(list)` of base.py
line 57, with insertion-ordered iteration). -/
def addToGroups (gs : List (TopicAndPartition × List (Bytes × Option Bytes)))
    (tp : TopicAndPartition) (p : Bytes × Option Bytes) :
    List (TopicAndPartition × List (Bytes × Option Bytes)) :=
  match gs with
  | [] => [(tp, [p])]
  | (tp', ps) :: rest =>
      if tp' = tp then (tp', ps ++ [p]) :: rest
      else (tp', ps) :: addToGroups rest tp p

/-- `msgset[topic_partition].append((msg, key))` over the collected
envelopes (base.py line 75). -/
def groupByDest (items : List (TopicAndPartition × Bytes × Option Bytes)) :
    List (TopicAndPartition × List (Bytes × Option Bytes)) :=
  items.foldl (fun gs it => addToGroups gs it.1 (it.2.1, it.2.2)) []

/-- The batch-assembly loop (base.py lines 78-83): one
`create_message_set` + `ProduceRequest` per destination group, with
`retries` defaulting to 0.  NOTE: in the source this loop is OUTSIDE the
`try` of lines 89-126, so a codec exception propagates out of
`_send_upstream` (represented by `Except.error`). -/
def encodeGroups (codec : Nat) :
    List (TopicAndPartition × List (Bytes × Option Bytes)) →
    Except Unit (List ProduceRequest)
  | [] => Except.ok []
  | (tp, ps) :: rest =>
    match create_message_set ps codec with
    | Except.error e => Except.error e
    | Except.ok ms =>
      match encodeGroups codec rest with
      | Except.error e => Except.error e
      | Except.ok rs => Except.ok (ProduceRequest.mk tp.topic tp.partition ms 0 :: rs)

/-- Result of one cycle of the worker loop: a new state plus the network
calls made, or a crash (a Python exception escaping `_send_upstream`,
killing the worker thread). -/
inductive CycleResult
  | ok (s : WorkerState) (calls : List NetCall)
  | crashed
deriving DecidableEq

/-- One iteration of the `while not stop_event.is_set()` body of
`_send_upstream` (base.py lines 50-129): collect up to
`batch_size - len(reqs)` envelopes, group and encode them (a codec error
crashes the worker), append to the carried-over `reqs`, `continue` if there
is nothing to send, otherwise dispatch and compute the next carry-over. -/
def workerCycle (cfg : WorkerConfig) (s : WorkerState) (inp : CycleInput) :
    CycleResult :=
  let count := cfg.batch_size - s.reqs.length
  let col := collectLoop count inp.avail s.queue []
  let stop1 := s.stop_set || col.2.2
  match encodeGroups cfg.codec (groupByDest col.1) with
  | Except.error _ => CycleResult.crashed
  | Except.ok fresh =>
    let reqs1 := s.reqs ++ fresh
    if reqs1 = [] then CycleResult.ok ⟨col.2.1, [], stop1⟩ []
    else
      CycleResult.ok ⟨col.2.1, dispatchRetries cfg.retry_options reqs1 inp.sendResult, stop1⟩
        (dispatchCalls cfg.retry_options reqs1 inp.sendResult)

/-- The `while not stop_event.is_set()` loop of `_send_upstream`, run for a
finite prefix of cycle inputs; returns the network calls made, in order.
A crashed cycle made no calls (the codec raises before the send) and ends
the worker. -/
def workerLoop (cfg : WorkerConfig) : WorkerState → List CycleInput → List NetCall
  | _, [] => []
  | s, inp :: rest =>
    if s.stop_set then []
    else
      match workerCycle cfg s inp with
      | CycleResult.ok s1 calls => calls ++ workerLoop cfg s1 rest
      | CycleResult.crashed => []

/-- `_send_upstream` itself: `client.reinit()` (base.py line 48) followed by
the worker loop. -/
def send_upstream (cfg : WorkerConfig) (s : WorkerState)
    (inputs : List CycleInput) : List NetCall :=
  NetCall.reinit :: workerLoop cfg s inputs

/-- Extract the request batches handed to `send_produce_request` from a
call trace. -/
def sendBatches (cs : List NetCall) : List (List ProduceRequest) :=
  cs.filterMap fun c =>
    match c with
    | NetCall.send rs => some rs
    | _ => none

/-- Whether a network call is a `send_produce_request`. -/
def isSend : NetCall → Bool
  | NetCall.send _ => true
  | _ => false

/-
  The Producer facade (base.py lines 132-309).
-/

def BATCH_SEND_DEFAULT_INTERVAL : Int := 20
def BATCH_SEND_MSG_COUNT : Int := 20
def ASYNC_QUEUE_MAXSIZE : Nat := 0
def ACK_AFTER_LOCAL_WRITE : Int := 1
def DEFAULT_ACK_TIMEOUT : Int := 1000

/-- The attributes of a constructed `Producer` that the embedded operations
read or write.  `thread_started` records that the background worker thread
was spawned; `has_cleanup_func` records that `_cleanup_func` exists and the
atexit hook is registered (both are removed together by `stop`). -/
structure ProducerState where
  async : Bool
  req_acks : Int
  ack_timeout : Int
  codec : Nat
  stopped : Bool
  batch_every_n : Int
  batch_every_t : Int
  queue_maxsize : Nat
  queue : List QueueItem
  thread_started : Bool
  thread_stop_event : Bool
  has_cleanup_func : Bool
deriving DecidableEq

/-- The two construction-time failures of `Producer.__init__`: a failed
`assert` (batching enabled with non-positive size/interval) or an
unsupported codec. -/
inductive InitError
  | assertionError
  | unsupportedCodec
deriving DecidableEq

/-- The state built at the end of a successful `__init__`. -/
def initState (a : Bool) (ra at0 : Int) (c : Nat) (n t : Int) (qm : Nat) :
    ProducerState :=
  { async := a, req_acks := ra, ack_timeout := at0, codec := c,
    stopped := false, batch_every_n := n, batch_every_t := t,
    queue_maxsize := qm, queue := [], thread_started := a,
    thread_stop_event := false, has_cleanup_func := a }

/-- `Producer.__init__` (base.py lines 158-213): `batch_send` forces
`async = True` and asserts positive batch parameters; otherwise the batch
parameters are overwritten with 1 / 3600; `codec=None` becomes `CODEC_NONE`
and an unknown codec raises `UnsupportedCodecError`; in async mode the
queue, the worker thread and the atexit cleanup hook are created. -/
def Producer.init (async0 : Bool) (req_acks ack_timeout : Int)
    (codecArg : Option Nat) (batch_send : Bool)
    (batch_send_every_n batch_send_every_t : Int)
    (async_queue_maxsize : Nat) : Except InitError ProducerState :=
  let a := if batch_send then true else async0
  let n := if batch_send then batch_send_every_n else 1
  let t := if batch_send then batch_send_every_t else 3600
  if batch_send ∧ ¬(0 < batch_send_every_n ∧ 0 < batch_send_every_t) then
    Except.error InitError.assertionError
  else
    match codecArg with
    | none => Except.ok (initState a req_acks ack_timeout CODEC_NONE n t async_queue_maxsize)
    | some c =>
        if c ∈ ALL_CODECS then
          Except.ok (initState a req_acks ack_timeout c n t async_queue_maxsize)
        else Except.error InitError.unsupportedCodec

/-- `Queue.put_nowait`: raises `Full` (here `none`) when a positive maxsize
is already reached, else appends. -/
def put_nowait (maxsize : Nat) (q : List QueueItem) (it : QueueItem) :
    Option (List QueueItem) :=
  if 0 < maxsize ∧ maxsize ≤ q.length then none else some (q ++ [it])

/-- The per-message enqueue loop of the async branch of `_send_messages`
(base.py lines 254-261): `put_nowait` each envelope; on `Full`, raise
`AsyncProducerQueueFull` reporting `queue.qsize()`.  The error value
carries the queue as mutated so far (earlier envelopes stay enqueued) and
the reported depth. -/
def enqueueAll (maxsize : Nat) (tp : TopicAndPartition) (key : Option Bytes) :
    List QueueItem → List Bytes → Except (List QueueItem × Nat) (List QueueItem)
  | q, [] => Except.ok q
  | q, m :: ms =>
    match put_nowait maxsize q (QueueItem.env tp m key) with
    | some q1 => enqueueAll maxsize tp key q1 ms
    | none => Except.error (q, q.length)

/-- Observable outcome of `_send_messages`: the producer state afterwards,
the returned response, the produce requests issued through the cluster
client during the call, and which exception (if any) propagated. -/
inductive SendOutcome
  | ok (p : ProducerState) (resp : List Nat) (sent : List ProduceRequest)
  | queueFull (p : ProducerState) (depth : Nat)
  | codecError (p : ProducerState)
  | clientError (p : ProducerState) (sent : List ProduceRequest)
deriving DecidableEq

/-- `Producer._send_messages` (base.py lines 234-272) on already
type-checked byte payloads (the `isinstance` checks of lines 238-251 are
enforced by the embedding's types).  Async mode enqueues one envelope per
message and returns `[]`; sync mode encodes all payloads into one
`ProduceRequest` and sends it, re-raising any client exception; the
client's answer is the oracle `clientResult`. -/
def send_messages (p : ProducerState) (topic : Bytes) (partition : Int)
    (msgs : List Bytes) (key : Option Bytes)
    (clientResult : Except Unit (List Nat)) : SendOutcome :=
  if p.async then
    match enqueueAll p.queue_maxsize ⟨topic, partition⟩ key p.queue msgs with
    | Except.ok q1 => SendOutcome.ok { p with queue := q1 } [] []
    | Except.error (q1, depth) =>
        SendOutcome.queueFull { p with queue := q1 } depth
  else
    match create_message_set (msgs.map fun m => (m, key)) p.codec with
    | Except.error _ => SendOutcome.codecError p
    | Except.ok ms =>
      match clientResult with
      | Except.error _ =>
          SendOutcome.clientError p [ProduceRequest.mk topic partition ms 0]
      | Except.ok resp =>
          SendOutcome.ok p resp [ProduceRequest.mk topic partition ms 0]

/-- `Producer.stop` (base.py lines 274-305): in async mode, blocking-put the
STOP sentinel, `join` the worker for the timeout, and set the force-stop
event if the thread is still alive (`threadAliveAfterJoin` is the oracle
for `thread.is_alive()`); then unregister and delete `_cleanup_func` if it
exists; finally set `stopped = True`.  There is no guard on `stopped`: the
body runs in full on every call. -/
def stop (threadAliveAfterJoin : Bool) (p : ProducerState) : ProducerState :=
  let p1 :=
    if p.async then
      { p with queue := p.queue ++ [QueueItem.stopSentinel],
               thread_stop_event := p.thread_stop_event || threadAliveAfterJoin }
    else p
  let p2 := if p1.has_cleanup_func then { p1 with has_cleanup_func := false } else p1
  { p2 with stopped := true }

/-- The `cleanup` closure registered with `atexit` in `__init__`
(base.py lines 209-213): `if obj.stopped: obj.stop()`. -/
def cleanup (threadAliveAfterJoin : Bool) (p : ProducerState) : ProducerState :=
  if p.stopped then stop threadAliveAfterJoin p else p

/-- `Producer.__del__` (base.py lines 307-309): `if not self.stopped:
self.stop()`. -/
def del_hook (threadAliveAfterJoin : Bool) (p : ProducerState) : ProducerState :=
  if !p.stopped then stop threadAliveAfterJoin p else p

/-- Payloads of a message set in encoded order (the round-trip decode
direction of the codec boundary). -/
def messageSetPayloads (ms : MessageSet) : List Bytes :=
  ms.pairs.map Prod.fst

/-- Shared sample destination (topic `"o"`, partition 0) for concrete
instantiations. -/
def tpO : TopicAndPartition := ⟨[111], 0⟩

/-- Shared sample one-payload message set (codec `CODEC_NONE`). -/
def msO : MessageSet := ⟨[([1], none)], 0⟩

/-- Shared sample fresh request (retries 0). -/
def reqO : ProduceRequest := ⟨[111], 0, msO, 0⟩

/-- Sample requests for three distinct destinations. -/
def reqA : ProduceRequest := ⟨[97], 0, ⟨[([1], none)], 0⟩, 0⟩

def reqB : ProduceRequest := ⟨[98], 0, ⟨[([2], none)], 0⟩, 0⟩

def reqC : ProduceRequest := ⟨[99], 0, ⟨[([3], none)], 0⟩, 0⟩

/-- A `FailedPayloadsError` naming `reqA` only. -/
def exFailA : ClusterError := ⟨ErrKind.failedPayloads [reqA], true, false⟩

/-- A `RequestTimedOutError`. -/
def exTimeout : ClusterError := ⟨ErrKind.requestTimedOut, true, false⟩

/-- A retry policy with a finite positive limit of 2. -/
def oLim2 : RetryOptions := ⟨some 2, 300, false⟩

/-- Worker configuration with the default retry options. -/
def cfgO : WorkerConfig := ⟨0, 20, BATCH_RETRY_OPTIONS⟩

/-- Worker configuration with retry limit 2. -/
def cfgLim2 : WorkerConfig := ⟨0, 20, oLim2⟩

/-- Worker configuration with batch size 2 (for the STOP-flush scenario). -/
def cfgStop : WorkerConfig := ⟨0, 2, BATCH_RETRY_OPTIONS⟩

/-- Worker state with one queued envelope. -/
def sOne : WorkerState := ⟨[QueueItem.env tpO [1] none], [], false⟩

/-- Worker state with one queued envelope followed by the STOP sentinel. -/
def sStop : WorkerState := ⟨[QueueItem.env tpO [1] none, QueueItem.stopSentinel], [], false⟩

/-- Cycle input: budget for two dequeues, send succeeds. -/
def inpOk : CycleInput := ⟨2, SendResult.success⟩

/-- Cycle input: budget for one dequeue, send raises a timeout error. -/
def inpTimeout : CycleInput := ⟨1, SendResult.clusterError exTimeout⟩

/-- A freshly constructed asynchronous producer (unbounded queue). -/
def pAsync : ProducerState := initState true 1 1000 0 20 20 0

/-- A freshly constructed asynchronous producer with queue capacity 2. -/
def pBounded : ProducerState := initState true 1 1000 0 20 20 2

/-- A freshly constructed synchronous producer. -/
def pSync : ProducerState := initState false 1 1000 0 1 3600 0

/-
  Helper lemmas.
-/

theorem incReq_retries (r : ProduceRequest) : (incReq r).retries = r.retries + 1 :=
  rfl

theorem limitFilter_nil (o : RetryOptions) : limitFilter o [] = [] := by
  unfold limitFilter
  cases o.limit with
  | none => rfl
  | some l => by_cases h : 0 < l <;> simp [h]

theorem limitFilter_mem (o : RetryOptions) (base : List ProduceRequest) (l : Int)
    (hl : o.limit = some l) (hpos : 0 < l) (r : ProduceRequest)
    (hr : r ∈ limitFilter o base) :
    ∃ r0, r0 ∈ base ∧ r0.retries < l ∧ r = incReq r0 := by
  unfold limitFilter at hr
  rw [hl] at hr
  simp only [if_pos hpos] at hr
  rcases List.mem_map.mp hr with ⟨r0, h0, hmap⟩
  rcases List.mem_filter.mp h0 with ⟨hmem, hlt⟩
  exact ⟨r0, hmem, by simpa using hlt, hmap.symm⟩

theorem classifyRetries_timeout (o : RetryOptions) (reqs : List ProduceRequest)
    (ex : ClusterError) (hk : ex.kind = ErrKind.requestTimedOut)
    (ht : o.retry_on_timeouts = false) : classifyRetries o reqs ex = [] := by
  simp [classifyRetries, hk, ht]

theorem classifyRetries_failed (o : RetryOptions) (reqs : List ProduceRequest)
    (ex : ClusterError) (failed : List ProduceRequest)
    (hk : ex.kind = ErrKind.failedPayloads failed) :
    classifyRetries o reqs ex = failed := by
  simp [classifyRetries, hk]

theorem computeRetries_mem (o : RetryOptions) (reqs : List ProduceRequest)
    (ex : ClusterError) (l : Int) (hl : o.limit = some l) (hpos : 0 < l)
    (r : ProduceRequest) (hr : r ∈ computeRetries o reqs ex) :
    ∃ r0, r0.retries < l ∧ r = incReq r0 := by
  rcases limitFilter_mem o _ l hl hpos r hr with ⟨r0, _, hlt, heq⟩
  exact ⟨r0, hlt, heq⟩

theorem dispatchRetries_mem (o : RetryOptions) (reqs : List ProduceRequest)
    (res : SendResult) (l : Int) (hl : o.limit = some l) (hpos : 0 < l)
    (r : ProduceRequest) (hr : r ∈ dispatchRetries o reqs res) :
    ∃ r0, r0.retries < l ∧ r = incReq r0 := by
  cases res with
  | success => cases hr
  | otherExn => cases hr
  | clusterError ex => exact computeRetries_mem o reqs ex l hl hpos r hr

theorem dispatchRetries_retries_le (o : RetryOptions) (reqs : List ProduceRequest)
    (res : SendResult) (l : Int) (hl : o.limit = some l) (hpos : 0 < l)
    (r : ProduceRequest) (hr : r ∈ dispatchRetries o reqs res) : r.retries ≤ l := by
  rcases dispatchRetries_mem o reqs res l hl hpos r hr with ⟨r0, hlt, heq⟩
  rw [heq, incReq_retries]
  omega

theorem encodeGroups_retries (codec : Nat) :
    ∀ (gs : List (TopicAndPartition × List (Bytes × Option Bytes)))
      (rs : List ProduceRequest), encodeGroups codec gs = Except.ok rs →
      ∀ r ∈ rs, r.retries = 0 := by
  intro gs
  induction gs with
  | nil =>
    intro rs h r hr
    simp only [encodeGroups] at h
    cases h
    cases hr
  | cons g rest ih =>
    intro rs h r hr
    obtain ⟨tp, ps⟩ := g
    simp only [encodeGroups] at h
    cases hms : create_message_set ps codec with
    | error e => rw [hms] at h; cases h
    | ok ms =>
      rw [hms] at h
      cases hrest : encodeGroups codec rest with
      | error e => rw [hrest] at h; cases h
      | ok rs0 =>
        rw [hrest] at h
        cases h
        rcases List.mem_cons.mp hr with hr | hr
        · rw [hr]
        · exact ih rs0 hrest r hr

theorem sendBatches_append (a b : List NetCall) :
    sendBatches (a ++ b) = sendBatches a ++ sendBatches b := by
  simp [sendBatches]

theorem sendBatches_dispatchCalls (o : RetryOptions) (reqs : List ProduceRequest)
    (res : SendResult) : sendBatches (dispatchCalls o reqs res) = [reqs] := by
  cases res with
  | success => rfl
  | otherExn => rfl
  | clusterError ex =>
    unfold dispatchCalls
    dsimp only
    by_cases h : computeRetries o reqs ex ≠ [] ∧ ex.inRefreshTypes = true
    · rw [if_pos h]; rfl
    · rw [if_neg h]; rfl

theorem countP_isSend_dispatchCalls (o : RetryOptions) (reqs : List ProduceRequest)
    (res : SendResult) : (dispatchCalls o reqs res).countP (fun c => isSend c) = 1 := by
  cases res with
  | success => rfl
  | otherExn => rfl
  | clusterError ex =>
    unfold dispatchCalls
    dsimp only
    by_cases h : computeRetries o reqs ex ≠ [] ∧ ex.inRefreshTypes = true
    · rw [if_pos h]; rfl
    · rw [if_neg h]; rfl

/-- Shape analysis of a non-crashing cycle: either nothing was sent (no
requests: state carries empty `reqs`, no calls), or the batch
`s.reqs ++ fresh` was dispatched, with `fresh` the encoded groups. -/
theorem workerCycle_ok_cases (cfg : WorkerConfig) (s : WorkerState)
    (inp : CycleInput) (s1 : WorkerState) (calls : List NetCall)
    (h : workerCycle cfg s inp = CycleResult.ok s1 calls) :
    (s1.reqs = [] ∧ calls = []) ∨
    ∃ fresh,
      encodeGroups cfg.codec
          (groupByDest (collectLoop (cfg.batch_size - s.reqs.length) inp.avail s.queue []).1) =
        Except.ok fresh ∧
      s1.reqs = dispatchRetries cfg.retry_options (s.reqs ++ fresh) inp.sendResult ∧
      calls = dispatchCalls cfg.retry_options (s.reqs ++ fresh) inp.sendResult := by
  simp only [workerCycle] at h
  cases henc : encodeGroups cfg.codec
      (groupByDest (collectLoop (cfg.batch_size - s.reqs.length) inp.avail s.queue []).1) with
  | error e => rw [henc] at h; cases h
  | ok fresh =>
    rw [henc] at h
    dsimp only at h
    by_cases hnil : s.reqs ++ fresh = []
    · rw [if_pos hnil] at h
      cases h
      exact Or.inl ⟨rfl, rfl⟩
    · rw [if_neg hnil] at h
      cases h
      exact Or.inr ⟨fresh, rfl, rfl, rfl⟩

theorem enqueueAll_ok (qm : Nat) (tp : TopicAndPartition) (key : Option Bytes) :
    ∀ (ms : List Bytes) (q : List QueueItem),
      (qm = 0 ∨ q.length + ms.length ≤ qm) →
      enqueueAll qm tp key q ms =
        Except.ok (q ++ ms.map fun m => QueueItem.env tp m key) := by
  intro ms
  induction ms with
  | nil => intro q _; simp [enqueueAll]
  | cons m ms ih =>
    intro q h
    unfold enqueueAll
    have hp : put_nowait qm q (QueueItem.env tp m key) =
        some (q ++ [QueueItem.env tp m key]) := by
      unfold put_nowait
      rw [if_neg ?_]
      rcases h with h | h
      · omega
      · simp only [List.length_cons] at h; omega
    rw [hp]
    dsimp only
    rw [ih (q ++ [QueueItem.env tp m key]) ?_]
    · simp
    · rcases h with h | h
      · exact Or.inl h
      · right
        simp at h ⊢
        omega

theorem enqueueAll_full (qm : Nat) (tp : TopicAndPartition) (key : Option Bytes) :
    ∀ (ms : List Bytes) (q : List QueueItem),
      0 < qm → q.length ≤ qm → qm < q.length + ms.length →
      enqueueAll qm tp key q ms =
        Except.error
          (q ++ (ms.take (qm - q.length)).map fun m => QueueItem.env tp m key, qm) := by
  intro ms
  induction ms with
  | nil =>
    intro q h1 h2 h3
    simp only [List.length_nil] at h3
    omega
  | cons m ms ih =>
    intro q h1 h2 h3
    unfold enqueueAll
    by_cases hfull : qm ≤ q.length
    · have hq : q.length = qm := le_antisymm h2 hfull
      have hp : put_nowait qm q (QueueItem.env tp m key) = none := by
        unfold put_nowait
        rw [if_pos ⟨h1, hfull⟩]
      rw [hp, hq]
      rw [Nat.sub_self]
      simp
    · push_neg at hfull
      have hp : put_nowait qm q (QueueItem.env tp m key) =
          some (q ++ [QueueItem.env tp m key]) := by
        unfold put_nowait
        rw [if_neg (by omega)]
      rw [hp]
      dsimp only
      rw [ih (q ++ [QueueItem.env tp m key]) h1 ?_ ?_]
      · have hsub : qm - q.length = (qm - (q.length + 1)) + 1 := by omega
        rw [hsub, List.take_succ_cons]
        simp
      · simp
        omega
      · simp at h3 ⊢
        omega

theorem send_messages_async_ok (p : ProducerState) (topic : Bytes)
    (partition : Int) (msgs : List Bytes) (key : Option Bytes)
    (cres : Except Unit (List Nat)) (ha : p.async = true)
    (hcap : p.queue_maxsize = 0 ∨ p.queue.length + msgs.length ≤ p.queue_maxsize) :
    send_messages p topic partition msgs key cres =
      SendOutcome.ok
        { p with queue := p.queue ++ msgs.map fun m => QueueItem.env ⟨topic, partition⟩ m key }
        [] [] := by
  unfold send_messages
  rw [if_pos ha]
  rw [enqueueAll_ok p.queue_maxsize ⟨topic, partition⟩ key msgs p.queue hcap]

theorem stop_async (b : Bool) (p : ProducerState) : (stop b p).async = p.async := by
  unfold stop
  dsimp only
  split <;> split <;> rfl

theorem stop_stopped (b : Bool) (p : ProducerState) : (stop b p).stopped = true := by
  unfold stop
  dsimp only

theorem stop_cleanup (b : Bool) (p : ProducerState) :
    (stop b p).has_cleanup_func = false := by
  unfold stop
  dsimp only
  split <;> split <;> first | rfl | (rename_i h; simpa using h)

theorem stop_queue_async (b : Bool) (p : ProducerState) (h : p.async = true) :
    (stop b p).queue = p.queue ++ [QueueItem.stopSentinel] := by
  unfold stop
  dsimp only
  rw [if_pos h]
  split <;> rfl

theorem workerCycle_retries_bounded (cfg : WorkerConfig) (s : WorkerState)
    (inp : CycleInput) (s1 : WorkerState) (calls : List NetCall) (l : Int)
    (hl : cfg.retry_options.limit = some l) (hpos : 0 < l)
    (hok : workerCycle cfg s inp = CycleResult.ok s1 calls)
    (hs : ∀ r ∈ s.reqs, r.retries ≤ l) :
    (∀ b ∈ sendBatches calls, ∀ r ∈ b, r.retries ≤ l)
  ∧ (∀ r ∈ s1.reqs, r.retries ≤ l) := by
  rcases workerCycle_ok_cases cfg s inp s1 calls hok with
    ⟨h1, h2⟩ | ⟨fresh, henc, hreqs, hcalls⟩
  · constructor
    · rw [h2]; intro b hb; cases hb
    · rw [h1]; intro r hr; cases hr
  · constructor
    · intro b hb r hr
      rw [hcalls, sendBatches_dispatchCalls] at hb
      rcases List.mem_singleton.mp hb with rfl
      rcases List.mem_append.mp hr with h | h
      · exact hs r h
      · have h0 := encodeGroups_retries cfg.codec _ fresh henc r h
        omega
    · intro r hr
      rw [hreqs] at hr
      exact dispatchRetries_retries_le _ _ _ l hl hpos r hr

theorem workerLoop_retries_bounded (cfg : WorkerConfig) (l : Int)
    (hl : cfg.retry_options.limit = some l) (hpos : 0 < l) :
    ∀ (inputs : List CycleInput) (s : WorkerState),
      (∀ r ∈ s.reqs, r.retries ≤ l) →
      ∀ b ∈ sendBatches (workerLoop cfg s inputs), ∀ r ∈ b, r.retries ≤ l := by
  intro inputs
  induction inputs with
  | nil => intro s _ b hb; cases hb
  | cons inp rest ih =>
    intro s hs b hb
    unfold workerLoop at hb
    by_cases hstop : s.stop_set = true
    · rw [if_pos hstop] at hb; cases hb
    · rw [if_neg hstop] at hb
      cases hcy : workerCycle cfg s inp with
      | crashed => rw [hcy] at hb; cases hb
      | ok s1 calls =>
        rw [hcy] at hb
        dsimp only at hb
        rw [sendBatches_append] at hb
        have hc := workerCycle_retries_bounded cfg s inp s1 calls l hl hpos hcy hs
        rcases List.mem_append.mp hb with h | h
        · exact hc.1 b h
        · exact ih s1 hc.2 b h

/-
  Claim theorems.
-/

/-- C1 counterexample.  A concrete cycle in which the worker dequeues one
envelope and then the STOP sentinel (setting the stop event: the result
state has `stop_set = true`), yet still issues a network send.  In the
embedding every `NetCall` of a cycle is emitted by the dispatch phase,
which runs after the collection phase in which STOP was observed (in the
source, `stop_event.set()` at line 69 precedes the
`client.send_produce_request` of line 90 in the same iteration), so this
refutes "after STOP is observed, the worker makes no further network
calls". -/
theorem C1_counterexample :
    workerCycle cfgStop sStop inpOk =
      CycleResult.ok ⟨[], [], true⟩ [NetCall.send [reqO]] := by decide

/-- C1 (amended).  Once the STOP sentinel has been observed, the worker
finishes only the cycle in progress: that cycle performs at most one send
(flushing the envelopes already collected together with any carry-over),
and after it the loop condition `not stop_event.is_set()` fails, so no
further cycles run and no further network calls are made. -/
theorem C1_stop_halts_after_flush (cfg : WorkerConfig) (s : WorkerState)
    (inp : CycleInput) (s1 : WorkerState) (calls : List NetCall)
    (inputs : List CycleInput)
    (hok : workerCycle cfg s inp = CycleResult.ok s1 calls)
    (hstop : s1.stop_set = true) :
    workerLoop cfg s1 inputs = [] ∧ calls.countP (fun c => isSend c) ≤ 1 := by
  constructor
  · cases inputs with
    | nil => rfl
    | cons a rest =>
      unfold workerLoop
      rw [if_pos hstop]
  · rcases workerCycle_ok_cases cfg s inp s1 calls hok with
      ⟨_, hc⟩ | ⟨fresh, _, _, hc⟩
    · rw [hc]; decide
    · rw [hc, countP_isSend_dispatchCalls]

/-- C1 witness: the amended theorem applied to the concrete STOP-flush
cycle of the counterexample. -/
theorem C1_stop_halts_after_flush_witness :
    workerLoop cfgStop ⟨[], [], true⟩ [inpOk] = [] ∧
      ([NetCall.send [reqO]].countP (fun c => isSend c)) ≤ 1 :=
  C1_stop_halts_after_flush cfgStop sStop inpOk ⟨[], [], true⟩
    [NetCall.send [reqO]] [inpOk] (by decide) rfl

/-- C2.  With a finite positive retry limit `l`: (1) every batch handed to
`send_produce_request` over a whole `_send_upstream` run (starting from a
state whose carry-over respects the bound, e.g. the initial empty one)
contains only requests with `retries ≤ l`; (2) every element of any
carry-over is the increment of an attempt whose `retries` was strictly
below the limit; (3) an attempt already at the limit is never carried over
in incremented form — it is dropped, not retried. -/
theorem C2_retry_limit (cfg : WorkerConfig) (s : WorkerState)
    (inputs : List CycleInput) (l : Int)
    (hl : cfg.retry_options.limit = some l) (hpos : 0 < l)
    (hs : ∀ r ∈ s.reqs, r.retries ≤ l) :
    (∀ b ∈ sendBatches (send_upstream cfg s inputs), ∀ r ∈ b, r.retries ≤ l)
  ∧ (∀ (reqs : List ProduceRequest) (res : SendResult) (r : ProduceRequest),
      r ∈ dispatchRetries cfg.retry_options reqs res →
      ∃ r0, r0.retries < l ∧ r = incReq r0)
  ∧ (∀ (reqs : List ProduceRequest) (res : SendResult) (r0 : ProduceRequest),
      r0.retries = l → incReq r0 ∉ dispatchRetries cfg.retry_options reqs res) := by
  refine ⟨?_, ?_, ?_⟩
  · have he : sendBatches (send_upstream cfg s inputs) =
        sendBatches (workerLoop cfg s inputs) := rfl
    rw [he]
    exact workerLoop_retries_bounded cfg l hl hpos inputs s hs
  · intro reqs res r hr
    exact dispatchRetries_mem _ _ _ l hl hpos r hr
  · intro reqs res r0 h0 hin
    have hle := dispatchRetries_retries_le _ _ _ l hl hpos _ hin
    rw [incReq_retries, h0] at hle
    omega

/-- C2 witness: the limit-2 configuration on a run of one cycle from the
one-envelope state. -/
theorem C2_retry_limit_witness :
    (∀ b ∈ sendBatches (send_upstream cfgLim2 sOne [inpOk]), ∀ r ∈ b, r.retries ≤ 2)
  ∧ (∀ (reqs : List ProduceRequest) (res : SendResult) (r : ProduceRequest),
      r ∈ dispatchRetries cfgLim2.retry_options reqs res →
      ∃ r0, r0.retries < 2 ∧ r = incReq r0)
  ∧ (∀ (reqs : List ProduceRequest) (res : SendResult) (r0 : ProduceRequest),
      r0.retries = 2 → incReq r0 ∉ dispatchRetries cfgLim2.retry_options reqs res) :=
  C2_retry_limit cfgLim2 sOne [inpOk] 2 rfl (by decide) (by decide)

/-- C3 counterexample.  With the producer's default worker retry
configuration `BATCH_RETRY_OPTIONS` (limit = 0, i.e. unbounded), a
partial-failure error naming 1 of 3 requests carries over exactly that
request — but with `retries` still 0, NOT incremented by 1 as the claim
states: lines 107-110 of base.py increment only under
`retry_options.limit and retry_options.limit > 0`. -/
theorem C3_counterexample :
    dispatchRetries BATCH_RETRY_OPTIONS [reqA, reqB, reqC]
        (SendResult.clusterError exFailA) = [reqA]
    ∧ reqA.retries = 0 := by decide

/-- C3 (amended).  When the send fails with a partial-failure error naming
`failed`, the carry-over is computed from exactly the named requests and
from no other request of the batch: with no limit or a non-positive limit
the named requests are carried over unchanged; with a positive limit the
named requests with `retries < limit` are carried over with `retries`
incremented by 1 and the rest are dropped. -/
theorem C3_partial_failure_carry_over (o : RetryOptions)
    (reqs failed : List ProduceRequest) (ex : ClusterError)
    (hk : ex.kind = ErrKind.failedPayloads failed) :
    (o.limit = none →
      dispatchRetries o reqs (SendResult.clusterError ex) = failed)
  ∧ (∀ l : Int, o.limit = some l → l ≤ 0 →
      dispatchRetries o reqs (SendResult.clusterError ex) = failed)
  ∧ (∀ l : Int, o.limit = some l → 0 < l →
      dispatchRetries o reqs (SendResult.clusterError ex) =
        (failed.filter fun r => decide (r.retries < l)).map incReq) := by
  have hb : dispatchRetries o reqs (SendResult.clusterError ex) =
      limitFilter o failed := by
    show computeRetries o reqs ex = limitFilter o failed
    rw [computeRetries, classifyRetries_failed o reqs ex failed hk]
  refine ⟨?_, ?_, ?_⟩
  · intro hn
    rw [hb]
    unfold limitFilter
    rw [hn]
  · intro l hl hle
    rw [hb]
    unfold limitFilter
    rw [hl]
    dsimp only
    rw [if_neg (by omega)]
  · intro l hl hpos
    rw [hb]
    unfold limitFilter
    rw [hl]
    dsimp only
    rw [if_pos hpos]

/-- C3 witness: with limit 2, the named failed request (at `retries` 0) is
carried over incremented. -/
theorem C3_partial_failure_carry_over_witness :
    dispatchRetries oLim2 [reqA, reqB] (SendResult.clusterError exFailA) =
      [incReq reqA] := by
  have h := (C3_partial_failure_carry_over oLim2 [reqA, reqB] [reqA] exFailA
    rfl).2.2 2 rfl (by decide)
  rw [h]
  decide

/-- C4 (code bug in base.py).  `create_message_set` is called at line 79,
OUTSIDE the `try` that starts at line 89, so an exception raised by the
codec during batch assembly propagates out of `_send_upstream` and kills
the worker thread instead of being logged and dropped: a concrete cycle
with an unsupported codec and one collected envelope crashes. -/
theorem C4_codec_error_crashes_worker :
    workerCycle { codec := 3, batch_size := 20, retry_options := BATCH_RETRY_OPTIONS }
        { queue := [QueueItem.env tpO [1] none], reqs := [], stop_set := false }
        { avail := 1, sendResult := SendResult.success } =
      CycleResult.crashed := by decide

/-- C5 (code bug in base.py).  The atexit cleanup closure registered by
`__init__` reads `if obj.stopped: obj.stop()` (line 210) — the condition is
inverted.  For a producer that was never stopped (`stopped = False`, the
case process teardown is meant to handle) the hook does nothing, while the
sibling `__del__` (line 308), written `if not self.stopped`, does invoke
`stop` on the very same state. -/
theorem C5_cleanup_condition_inverted :
    pAsync.stopped = false
  ∧ cleanup false pAsync = pAsync
  ∧ del_hook false pAsync ≠ pAsync := by decide

/-- C6.  Asynchronous send of N payloads: (1) with capacity for all N
(unbounded queue, or at least N free slots), every envelope is enqueued in
order and the call returns the empty response with no request issued
through the client; (2) when the capacity runs out mid-loop, the call
fails with `AsyncProducerQueueFull` reporting the current queue depth
(`qsize()`, which at the failure point equals the capacity), the envelopes
that fit stay enqueued, and the envelope that triggered the failure (and
all later ones) is not enqueued. -/
theorem C6_async_send (p : ProducerState) (topic : Bytes) (partition : Int)
    (msgs : List Bytes) (key : Option Bytes) (cres : Except Unit (List Nat))
    (ha : p.async = true) :
    ((p.queue_maxsize = 0 ∨ p.queue.length + msgs.length ≤ p.queue_maxsize) →
      send_messages p topic partition msgs key cres =
        SendOutcome.ok
          { p with queue := p.queue ++ msgs.map fun m => QueueItem.env ⟨topic, partition⟩ m key }
          [] [])
  ∧ (0 < p.queue_maxsize → p.queue.length ≤ p.queue_maxsize →
      p.queue_maxsize < p.queue.length + msgs.length →
      send_messages p topic partition msgs key cres =
        SendOutcome.queueFull
          { p with queue := p.queue ++
              ((msgs.take (p.queue_maxsize - p.queue.length)).map fun m =>
                QueueItem.env ⟨topic, partition⟩ m key) }
          p.queue_maxsize) := by
  constructor
  · intro hcap
    exact send_messages_async_ok p topic partition msgs key cres ha hcap
  · intro h1 h2 h3
    unfold send_messages
    rw [if_pos ha]
    rw [enqueueAll_full p.queue_maxsize ⟨topic, partition⟩ key msgs p.queue h1 h2 h3]

/-- C6 witness: capacity case on the unbounded producer, overflow case on
the capacity-2 producer sending three payloads (the first two are
enqueued, the third triggers the error with reported depth 2). -/
theorem C6_async_send_witness :
    send_messages pAsync [116] 0 [[1]] none (Except.ok []) =
      SendOutcome.ok { pAsync with queue := [QueueItem.env ⟨[116], 0⟩ [1] none] } [] []
  ∧ send_messages pBounded [116] 0 [[1], [2], [3]] none (Except.ok []) =
      SendOutcome.queueFull
        { pBounded with queue := [QueueItem.env ⟨[116], 0⟩ [1] none,
                                  QueueItem.env ⟨[116], 0⟩ [2] none] } 2 := by
  constructor
  · have h := (C6_async_send pAsync [116] 0 [[1]] none (Except.ok []) rfl).1
      (Or.inl rfl)
    rw [h]
    decide
  · have h := (C6_async_send pBounded [116] 0 [[1], [2], [3]] none (Except.ok [])
      rfl).2 (by decide) (by decide) (by decide)
    rw [h]
    decide

/-- C7.  Synchronous send of N valid byte payloads with a supported codec:
exactly one produce request is issued through the cluster client, its
message set holds all N payloads paired with the key in call order (and
decoding the message set's payloads in order reproduces the payload list);
the call returns the broker response on success and re-raises the client's
exception on failure; with an unsupported codec the codec's error
propagates to the caller before any request is issued. -/
theorem C7_sync_send (p : ProducerState) (topic : Bytes) (partition : Int)
    (msgs : List Bytes) (key : Option Bytes) (cres : Except Unit (List Nat))
    (ha : p.async = false) :
    (p.codec ∈ ALL_CODECS → ∀ resp, cres = Except.ok resp →
      send_messages p topic partition msgs key cres =
        SendOutcome.ok p resp
          [ProduceRequest.mk topic partition ⟨msgs.map fun m => (m, key), p.codec⟩ 0])
  ∧ (p.codec ∈ ALL_CODECS → ∀ e : Unit, cres = Except.error e →
      send_messages p topic partition msgs key cres =
        SendOutcome.clientError p
          [ProduceRequest.mk topic partition ⟨msgs.map fun m => (m, key), p.codec⟩ 0])
  ∧ messageSetPayloads ⟨msgs.map fun m => (m, key), p.codec⟩ = msgs
  ∧ (p.codec ∉ ALL_CODECS →
      send_messages p topic partition msgs key cres = SendOutcome.codecError p) := by
  have hna : ¬ p.async = true := by rw [ha]; exact Bool.false_ne_true
  refine ⟨?_, ?_, ?_, ?_⟩
  · intro hc resp hres
    unfold send_messages
    rw [if_neg hna]
    unfold create_message_set
    rw [if_pos hc, hres]
  · intro hc e hres
    unfold send_messages
    rw [if_neg hna]
    unfold create_message_set
    rw [if_pos hc, hres]
  · unfold messageSetPayloads
    dsimp only
    induction msgs with
    | nil => rfl
    | cons a as iha =>
      simp only [List.map_cons] at iha ⊢
      rw [iha]
  · intro hc
    unfold send_messages
    rw [if_neg hna]
    unfold create_message_set
    rw [if_neg hc]

/-- C7 witness: the synchronous producer sending two payloads, the client
answering with response `[7]`. -/
theorem C7_sync_send_witness :
    send_messages pSync [116] 0 [[1], [2]] none (Except.ok [7]) =
      SendOutcome.ok pSync [7]
        [ProduceRequest.mk [116] 0 ⟨[([1], none), ([2], none)], 0⟩ 0] :=
  (C7_sync_send pSync [116] 0 [[1], [2]] none (Except.ok [7]) rfl).1
    (by decide) [7] rfl

/-- C8.  When the send of a cycle raises a timeout error
(`RequestTimedOutError`) and the policy says not to retry timeouts, the
carry-over for the next cycle is empty: nothing from the batch is
retried. -/
theorem C8_timeout_not_retried (cfg : WorkerConfig) (s : WorkerState)
    (inp : CycleInput) (s1 : WorkerState) (calls : List NetCall)
    (ex : ClusterError)
    (hok : workerCycle cfg s inp = CycleResult.ok s1 calls)
    (hres : inp.sendResult = SendResult.clusterError ex)
    (hk : ex.kind = ErrKind.requestTimedOut)
    (ht : cfg.retry_options.retry_on_timeouts = false) :
    s1.reqs = [] := by
  rcases workerCycle_ok_cases cfg s inp s1 calls hok with
    ⟨h1, _⟩ | ⟨fresh, _, hreqs, _⟩
  · exact h1
  · rw [hreqs, hres]
    show computeRetries _ _ _ = []
    rw [computeRetries, classifyRetries_timeout _ _ _ hk ht, limitFilter_nil]

/-- C8 witness: a concrete one-envelope cycle whose send times out under
the default (no-timeout-retry) options carries nothing over. -/
theorem C8_timeout_not_retried_witness :
    workerCycle cfgO sOne inpTimeout =
      CycleResult.ok ⟨[], [], false⟩ [NetCall.send [reqO]] ∧
    (WorkerState.mk [] [] false).reqs = [] :=
  ⟨by decide,
   C8_timeout_not_retried cfgO sOne inpTimeout ⟨[], [], false⟩
     [NetCall.send [reqO]] exTimeout (by decide) rfl rfl rfl⟩

/-- C9 counterexample.  `stop` has no guard on `self.stopped`: its body
runs in full on every call, and in async mode line 280 unconditionally
puts a STOP sentinel.  Calling `stop` a second time on a concrete fresh
async producer changes the queue (a second sentinel appears), so the
second call is not a no-op that leaves the queue as after the first
stop. -/
theorem C9_counterexample :
    (stop false (stop false pAsync)).queue ≠ (stop false pAsync).queue := by
  decide

/-- C9 (amended).  A second `stop` call does not raise and leaves the
`stopped` flag `true` and the cleanup hook unregistered, exactly as after
the first call — but it is not a no-op on the queue: it enqueues one
additional STOP sentinel (and re-joins the thread).  `stop` is idempotent
on the producer's flags, not on the shared work queue. -/
theorem C9_second_stop_not_noop (p : ProducerState) (b b' : Bool)
    (h : p.async = true) :
    (stop b' (stop b p)).stopped = true
  ∧ (stop b' (stop b p)).has_cleanup_func = false
  ∧ (stop b' (stop b p)).queue = (stop b p).queue ++ [QueueItem.stopSentinel] := by
  refine ⟨stop_stopped b' (stop b p), stop_cleanup b' (stop b p), ?_⟩
  have h1 : (stop b p).async = true := by rw [stop_async, h]
  exact stop_queue_async b' (stop b p) h1

/-- C9 witness: the amended theorem at the concrete fresh async
producer. -/
theorem C9_second_stop_not_noop_witness :
    (stop false (stop false pAsync)).stopped = true
  ∧ (stop false (stop false pAsync)).has_cleanup_func = false
  ∧ (stop false (stop false pAsync)).queue =
      (stop false pAsync).queue ++ [QueueItem.stopSentinel] :=
  C9_second_stop_not_noop pAsync false false rfl

/-- C10.  Constructing a producer with `batch_send = True` silently forces
asynchronous mode even though `async` was explicitly passed as `False`
(line 169 of base.py): construction succeeds (given positive batch
parameters), the resulting producer has `async = True`, the background
worker thread is spawned, and a subsequent send enqueues an envelope and
issues no request through the client instead of sending directly. -/
theorem C10_batch_send_forces_async (ra at0 n t : Int) (qm : Nat)
    (hn : 0 < n) (ht : 0 < t) :
    ∃ p, Producer.init false ra at0 none true n t qm = Except.ok p
      ∧ p.async = true ∧ p.thread_started = true
      ∧ ∀ (topic : Bytes) (partition : Int) (m : Bytes) (key : Option Bytes)
          (cres : Except Unit (List Nat)),
          send_messages p topic partition [m] key cres =
            SendOutcome.ok
              { p with queue := [QueueItem.env ⟨topic, partition⟩ m key] } [] [] := by
  refine ⟨initState true ra at0 CODEC_NONE n t qm, ?_, rfl, rfl, ?_⟩
  · unfold Producer.init
    rw [if_neg (fun hcon => hcon.2 ⟨hn, ht⟩)]
    rfl
  · intro topic partition m key cres
    have hcap : (initState true ra at0 CODEC_NONE n t qm).queue_maxsize = 0 ∨
        (initState true ra at0 CODEC_NONE n t qm).queue.length + [m].length ≤
          (initState true ra at0 CODEC_NONE n t qm).queue_maxsize := by
      rcases Nat.eq_zero_or_pos qm with hq | hq
      · exact Or.inl hq
      · right
        simp [initState]
        omega
    have h := send_messages_async_ok (initState true ra at0 CODEC_NONE n t qm)
      topic partition [m] key cres rfl hcap
    rw [h]
    simp [initState]

/-- C10 witness: concrete construction with `async=False, batch_send=True`
and default-like batch parameters. -/
theorem C10_batch_send_forces_async_witness :
    ∃ p, Producer.init false 1 1000 none true 20 20 0 = Except.ok p
      ∧ p.async = true ∧ p.thread_started = true
      ∧ ∀ (topic : Bytes) (partition : Int) (m : Bytes) (key : Option Bytes)
          (cres : Except Unit (List Nat)),
          send_messages p topic partition [m] key cres =
            SendOutcome.ok
              { p with queue := [QueueItem.env ⟨topic, partition⟩ m key] } [] [] :=
  C10_batch_send_forces_async 1 1000 20 20 0 (by decide) (by decide)

end Kafka
